import Mathlib

/-!
Shallow embedding of `src/Core/mupen64plus-core/src/device/device.c`:
the bus / device-composition layer of the emulator core.  Pointers and
function pointers are represented by symbolic tags; machine integers by
`Nat` (with explicit wrap where the C code can wrap).
-/

namespace Device

/-! ### Memory map constants

Modelled from the spec: the numeric values of the `MM_*` thresholds come
from `memory.h`, which is not among the provided source files; the values
below are the ones stated in the address-range comments inside
`get_pi_dma_handler` and in the memory-map table of `device.c`
(e.g. "0x10000000 - 0x1fbfffff : dom1 addr2, cart rom"). -/

def MM_RDRAM_DRAM : Nat := 0x00000000
def MM_RDRAM_REGS : Nat := 0x03f00000
def MM_RSP_MEM : Nat := 0x04000000
def MM_RSP_REGS : Nat := 0x04040000
def MM_RSP_REGS2 : Nat := 0x04080000
def MM_DPC_REGS : Nat := 0x04100000
def MM_DPS_REGS : Nat := 0x04200000
def MM_MI_REGS : Nat := 0x04300000
def MM_VI_REGS : Nat := 0x04400000
def MM_AI_REGS : Nat := 0x04500000
def MM_PI_REGS : Nat := 0x04600000
def MM_RI_REGS : Nat := 0x04700000
def MM_SI_REGS : Nat := 0x04800000
def MM_DOM2_ADDR1 : Nat := 0x05000000
def MM_DD_ROM : Nat := 0x06000000
def MM_DOM2_ADDR2 : Nat := 0x08000000
def MM_CART_ROM : Nat := 0x10000000
def MM_IS_VIEWER : Nat := 0x13ff0000
def MM_PIF_MEM : Nat := 0x1fc00000
def MM_CART_DOM3 : Nat := 0x1fd00000

/-- Modelled from the spec: MIPS cached segment base (`R4300_KSEG0`), defined
outside the provided sources; the exporter ORs it onto RDRAM's base. -/
def R4300_KSEG0 : Nat := 0x80000000

/-- Modelled from the spec: MIPS uncached segment base (`R4300_KSEG1`). -/
def R4300_KSEG1 : Nat := 0xa0000000

/-! ### Open bus handlers (`device.c` lines 45-53) -/

/-- Embeds `read_open_bus`: `*value = (address & 0xffff); *value |= (*value << 16);`.
The returned `Nat` is the 32-bit word stored through `value`. -/
def read_open_bus (address : Nat) : Nat :=
  let value := address &&& 0xffff
  value ||| (value <<< 16)

/-- Embeds `write_open_bus`: the body is empty, so any state `s` it could
touch is returned unchanged, for every address, value and mask. -/
def write_open_bus {σ : Type} (s : σ) (address value mask : Nat) : σ := s

/-! ### PI DMA handler resolver (`device.c` lines 55-84) -/

/-- Context pointer stored into `*opaque` by `get_pi_dma_handler`:
`cart`, `&cart->cart_rom`, or `dd`. -/
inductive PiDmaCtx
  | cartPtr
  | cartRomPtr
  | ddPtr
  deriving DecidableEq, Repr

/-- Read/write function pair stored into `*handler` by the `RW` macro of
`get_pi_dma_handler`. -/
inductive PiDmaFn
  | cart_dom3
  | cart_rom
  | cart_dom2
  | dd_dom
  deriving DecidableEq, Repr

/-- Embeds `get_pi_dma_handler`.  The two out-parameters are modelled by
threading their incoming values `c0`, `f0`: a branch that fires overwrites
them, and when no branch fires (address below `MM_DOM2_ADDR1`) they are
returned exactly as passed in, as in the C code. -/
def get_pi_dma_handler (address : Nat) (c0 : PiDmaCtx) (f0 : PiDmaFn) :
    PiDmaCtx × PiDmaFn :=
  if MM_CART_ROM ≤ address then
    if MM_CART_DOM3 ≤ address then
      (PiDmaCtx.cartPtr, PiDmaFn.cart_dom3)
    else
      (PiDmaCtx.cartRomPtr, PiDmaFn.cart_rom)
  else if MM_DOM2_ADDR2 ≤ address then
    (PiDmaCtx.cartPtr, PiDmaFn.cart_dom2)
  else if MM_DOM2_ADDR1 ≤ address then
    (PiDmaCtx.ddPtr, PiDmaFn.dd_dom)
  else
    (c0, f0)

/-- Modelled from the spec: the PI controller (caller of the resolver, not
among the provided sources) issues DMA into the DOM2-addr1 band only when a
disk drive is composed; the band is absent otherwise. -/
def pi_dma_dom2addr1_reachable (ddPresent : Bool) (address : Nat) : Prop :=
  MM_DOM2_ADDR1 ≤ address → address < MM_DOM2_ADDR2 → ddPresent = true

/-! ### Mapping table (`device.c` lines 250-285) -/

/-- Region type tag, `m64p_dbg_mem_type` values used in the `mappings` table. -/
inductive MemType
  | nothing
  | rdram
  | rdramReg
  | rspMem
  | rspReg
  | rsp
  | dp
  | dps
  | mi
  | vi
  | ai
  | pi
  | ri
  | si
  | flashramStat
  | rom
  | ddReg
  | ddRom
  | pif
  deriving DecidableEq, Repr

/-- Context pointer stored in a region's `mem_handler` (first field of the
`{ ctx, read, write }` triple in the C table). -/
inductive HandlerCtx
  | null
  | rdram
  | sp
  | dp
  | mi
  | vi
  | ai
  | pi
  | ri
  | si
  | cart
  | cartRom
  | is
  | pif
  | dd
  deriving DecidableEq, Repr

/-- Read/write function pair generated by the `RW(x)` macro in the mapping
table (the read and write functions always come in matched pairs). -/
inductive RwFns
  | open_bus
  | rdram_dram
  | rdram_regs
  | rsp_mem
  | rsp_regs
  | rsp_regs2
  | dpc_regs
  | dps_regs
  | mi_regs
  | vi_regs
  | ai_regs
  | pi_regs
  | ri_regs
  | si_regs
  | cart_dom2
  | is_viewer
  | cart_rom
  | pif_mem
  | dd_regs
  | dd_rom
  deriving DecidableEq, Repr

/-- Pointer value stored in the `retroarch_mapping.ptr` field of the static
table (either `NULL` or the address of a register block of `dev`). -/
inductive RaPtr
  | null
  | rdramRegs
  | spRegs
  | spRegs2
  | dpcRegs
  | dpsRegs
  | miRegs
  | viRegs
  | aiRegs
  | piRegs
  | riRegs
  | siRegs
  deriving DecidableEq, Repr

/-- Modelled from the spec: `RETRO_MEMDESC_CONST` flag value from
`libretro.h`, which is not among the provided sources. -/
def RETRO_MEMDESC_CONST : Nat := 1

/-- Modelled from the spec: `RETRO_MEMDESC_SYSTEM_RAM` flag value from
`libretro.h`. -/
def RETRO_MEMDESC_SYSTEM_RAM : Nat := 4

/-- Embeds `struct mem_mapping`: address window `[begin_, end_]`, type tag,
bus handler `{hctx, hrw}`, and the nested `retroarch_mapping`
`{ra_ptr, ra_len, ra_flags}`. -/
structure MemMapping where
  begin_ : Nat
  end_ : Nat
  type : MemType
  hctx : HandlerCtx
  hrw : RwFns
  ra_ptr : RaPtr
  ra_len : Nat
  ra_flags : Nat
  deriving DecidableEq, Repr

/-- Embeds the C expression `size - 1` at type `size_t` (64-bit unsigned
wrap-around subtraction, so `0 - 1 = 2^64 - 1`). -/
def size_sub1 (n : Nat) : Nat := (n + (2 ^ 64 - 1)) % 2 ^ 64

/-- Embeds the initializer of `mappings[]` in `init_device` (lines 250-273):
the `A(x,m)` macro expands to begin `x`, end `x | m`. -/
def base_mappings (dram_size rom_size : Nat) : List MemMapping :=
  [ ⟨0x00000000, 0xffffffff, MemType.nothing, HandlerCtx.null, RwFns.open_bus,
      RaPtr.null, 0, 0⟩,
    ⟨MM_RDRAM_DRAM, MM_RDRAM_DRAM ||| 0x3efffff, MemType.rdram, HandlerCtx.rdram,
      RwFns.rdram_dram, RaPtr.null, dram_size, RETRO_MEMDESC_SYSTEM_RAM⟩,
    ⟨MM_RDRAM_REGS, MM_RDRAM_REGS ||| 0xfffff, MemType.rdramReg, HandlerCtx.rdram,
      RwFns.rdram_regs, RaPtr.rdramRegs, 0xfffff, 0⟩,
    ⟨MM_RSP_MEM, MM_RSP_MEM ||| 0xffff, MemType.rspMem, HandlerCtx.sp,
      RwFns.rsp_mem, RaPtr.null, 0xffff, 0⟩,
    ⟨MM_RSP_REGS, MM_RSP_REGS ||| 0xffff, MemType.rspReg, HandlerCtx.sp,
      RwFns.rsp_regs, RaPtr.spRegs, 0xffff, 0⟩,
    ⟨MM_RSP_REGS2, MM_RSP_REGS2 ||| 0xffff, MemType.rsp, HandlerCtx.sp,
      RwFns.rsp_regs2, RaPtr.spRegs2, 0xffff, 0⟩,
    ⟨MM_DPC_REGS, MM_DPC_REGS ||| 0xffff, MemType.dp, HandlerCtx.dp,
      RwFns.dpc_regs, RaPtr.dpcRegs, 0xffff, 0⟩,
    ⟨MM_DPS_REGS, MM_DPS_REGS ||| 0xffff, MemType.dps, HandlerCtx.dp,
      RwFns.dps_regs, RaPtr.dpsRegs, 0xffff, 0⟩,
    ⟨MM_MI_REGS, MM_MI_REGS ||| 0xffff, MemType.mi, HandlerCtx.mi,
      RwFns.mi_regs, RaPtr.miRegs, 0xffff, 0⟩,
    ⟨MM_VI_REGS, MM_VI_REGS ||| 0xffff, MemType.vi, HandlerCtx.vi,
      RwFns.vi_regs, RaPtr.viRegs, 0xffff, 0⟩,
    ⟨MM_AI_REGS, MM_AI_REGS ||| 0xffff, MemType.ai, HandlerCtx.ai,
      RwFns.ai_regs, RaPtr.aiRegs, 0xffff, 0⟩,
    ⟨MM_PI_REGS, MM_PI_REGS ||| 0xffff, MemType.pi, HandlerCtx.pi,
      RwFns.pi_regs, RaPtr.piRegs, 0xffff, 0⟩,
    ⟨MM_RI_REGS, MM_RI_REGS ||| 0xffff, MemType.ri, HandlerCtx.ri,
      RwFns.ri_regs, RaPtr.riRegs, 0xffff, 0⟩,
    ⟨MM_SI_REGS, MM_SI_REGS ||| 0xffff, MemType.si, HandlerCtx.si,
      RwFns.si_regs, RaPtr.siRegs, 0xffff, 0⟩,
    ⟨MM_DOM2_ADDR1, MM_DOM2_ADDR1 ||| 0xffffff, MemType.nothing, HandlerCtx.null,
      RwFns.open_bus, RaPtr.null, 0xffffff, 0⟩,
    ⟨MM_DD_ROM, MM_DD_ROM ||| 0x1ffffff, MemType.nothing, HandlerCtx.null,
      RwFns.open_bus, RaPtr.null, 0x1ffffff, 0⟩,
    ⟨MM_DOM2_ADDR2, MM_DOM2_ADDR2 ||| 0x1ffff, MemType.flashramStat,
      HandlerCtx.cart, RwFns.cart_dom2, RaPtr.null, 0x1ffff, 0⟩,
    ⟨MM_IS_VIEWER, MM_IS_VIEWER ||| 0xfff, MemType.nothing, HandlerCtx.is,
      RwFns.is_viewer, RaPtr.null, 0xfff, 0⟩,
    ⟨MM_CART_ROM, MM_CART_ROM ||| size_sub1 rom_size, MemType.rom,
      HandlerCtx.cartRom, RwFns.cart_rom, RaPtr.null, size_sub1 rom_size,
      RETRO_MEMDESC_CONST⟩,
    ⟨MM_PIF_MEM, MM_PIF_MEM ||| 0xffff, MemType.pif, HandlerCtx.pif,
      RwFns.pif_mem, RaPtr.null, 0xffff, 0⟩ ]

/-- Embeds the entry assigned to `mappings[14]` when a disk drive is present
(line 277). -/
def dd_regs_mapping : MemMapping :=
  ⟨MM_DOM2_ADDR1, MM_DOM2_ADDR1 ||| 0xffffff, MemType.ddReg, HandlerCtx.dd,
    RwFns.dd_regs, RaPtr.null, 0xffffff, 0⟩

/-- Embeds the entry assigned to `mappings[15]` when a disk drive is present
(line 278). -/
def dd_rom_mapping (dd_rom_size : Nat) : MemMapping :=
  ⟨MM_DD_ROM, MM_DD_ROM ||| size_sub1 dd_rom_size, MemType.ddRom, HandlerCtx.dd,
    RwFns.dd_rom, RaPtr.null, size_sub1 dd_rom_size, RETRO_MEMDESC_CONST⟩

/-- Embeds the mapping table as built by `init_device`: the static
initializer followed by the conditional overwrite of slots 14 and 15 when
`dd_rom_size > 0` (lines 276-278). -/
def build_mappings (dram_size rom_size dd_rom_size : Nat) : List MemMapping :=
  let mappings := base_mappings dram_size rom_size
  if 0 < dd_rom_size then
    (mappings.set 14 dd_regs_mapping).set 15 (dd_rom_mapping dd_rom_size)
  else
    mappings

/-! ### Interrupt routing table and composition (`device.c` lines 227-338) -/

/-- Handler function registered in the `interrupt_handlers` table of
`init_device`. -/
inductive IntFn
  | vi_vertical
  | compare
  | check
  | si_end_of_dma
  | pi_end_of_dma
  | special
  | ai_end_of_dma
  | rsp_interrupt
  | rdp_interrupt
  | hw2
  | nmi
  | reset_hard
  | rsp_end_of_dma
  | dd_mecha
  | dd_bm
  | dd_dv
  deriving DecidableEq, Repr

/-- Context pointer paired with each handler in `interrupt_handlers`. -/
inductive IntCtx
  | vi
  | r4300
  | si
  | pi
  | cp0
  | ai
  | sp
  | dp
  | pif
  | dev
  | dd
  deriving DecidableEq, Repr

/-- Embeds the `interrupt_handlers[]` initializer of `init_device`
(lines 227-244).  The array is built unconditionally, for every
configuration — including the three disk-drive entries at its tail. -/
def interrupt_handlers : List (IntCtx × IntFn) :=
  [ (IntCtx.vi, IntFn.vi_vertical),
    (IntCtx.r4300, IntFn.compare),
    (IntCtx.r4300, IntFn.check),
    (IntCtx.si, IntFn.si_end_of_dma),
    (IntCtx.pi, IntFn.pi_end_of_dma),
    (IntCtx.cp0, IntFn.special),
    (IntCtx.ai, IntFn.ai_end_of_dma),
    (IntCtx.sp, IntFn.rsp_interrupt),
    (IntCtx.dp, IntFn.rdp_interrupt),
    (IntCtx.pif, IntFn.hw2),
    (IntCtx.dev, IntFn.nmi),
    (IntCtx.dev, IntFn.reset_hard),
    (IntCtx.sp, IntFn.rsp_end_of_dma),
    (IntCtx.dd, IntFn.dd_mecha),
    (IntCtx.dd, IntFn.dd_bm),
    (IntCtx.dd, IntFn.dd_dv) ]

/-- Embeds the boot-vector base computation of `init_device` (lines 311-318):
`rom_base = (rom_size == 0 || (dd_rom_size > 0 && media != 'C')) ? MM_DD_ROM
: MM_CART_ROM`, where `media` is the byte of the cartridge image at offset
`0x3b ^ S8` (the byte value is taken as an input here; `'C' = 0x43`). -/
def boot_rom_base (rom_size dd_rom_size media : Nat) : Nat :=
  if rom_size = 0 ∨ (0 < dd_rom_size ∧ media ≠ 0x43) then MM_DD_ROM
  else MM_CART_ROM

/-- Observable outcome of `init_device` for the composed device: its mapping
table, the interrupt routing table handed to `init_r4300`, whether `init_dd`
ran (equivalently whether `dev->dd.rom` is non-NULL afterwards — the device
aggregate is zero-initialized by the caller, per the spec's composition
model), and the boot-vector base passed to `init_pif`. -/
structure ComposedDevice where
  mappings : List MemMapping
  itable : List (IntCtx × IntFn)
  dd_rom_present : Bool
  rom_base : Nat
  deriving DecidableEq, Repr

/-- Embeds `init_device`, restricted to the configuration inputs the
mapping table, interrupt table, disk-drive initialization and boot-vector
selection depend on. -/
def init_device (dram_size rom_size dd_rom_size media : Nat) : ComposedDevice :=
  { mappings := build_mappings dram_size rom_size dd_rom_size,
    itable := interrupt_handlers,
    dd_rom_present := decide (0 < dd_rom_size),
    rom_base := boot_rom_base rom_size dd_rom_size media }

/-- Power-on operation invoked by `poweron_device`, in call order. -/
inductive PowerOp
  | rdram
  | r4300
  | dp
  | sp
  | ai
  | mi
  | pi
  | ri
  | si
  | vi
  | pif
  | cart
  | is_viewer
  | channel (i : Nat)
  | dd
  deriving DecidableEq, Repr

/-- Embeds `poweron_device` (lines 340-373) as the trace of power-on calls
it makes: the fixed controller sequence, then one call per attached joybus
channel device exposing a power-on capability (`chans` lists those channel
indices), then `poweron_dd` guarded by `dev->dd.rom != NULL`. -/
def poweron_device (dev : ComposedDevice) (chans : List Nat) : List PowerOp :=
  [ PowerOp.rdram, PowerOp.r4300, PowerOp.dp, PowerOp.sp, PowerOp.ai,
    PowerOp.mi, PowerOp.pi, PowerOp.ri, PowerOp.si, PowerOp.vi,
    PowerOp.pif, PowerOp.cart, PowerOp.is_viewer ]
  ++ chans.map PowerOp.channel
  ++ (if dev.dd_rom_present then [PowerOp.dd] else [])

/-! ### Host map exporter (`device.c` lines 86-191) -/

/-- Modelled from the spec: `PIF_ROM_SIZE` from `pif.h`, not among the
provided sources (1984 bytes of boot firmware). -/
def PIF_ROM_SIZE : Nat := 0x7c0

/-- Modelled from the spec: `PIF_RAM_SIZE` from `pif.h` (64 bytes). -/
def PIF_RAM_SIZE : Nat := 0x40

/-- Backing pointer written into a `retro_memory_descriptor`: either one of
the buffers fetched from `dev` by the special-cased branches of
`setup_retroarch_memory_map`, or the pointer stored in the mapping's own
`retroarch_mapping` (the fall-through branch).  The two classes are distinct
pointer sources in the C code. -/
inductive DescPtr
  | devDram
  | devSpMem
  | devSram
  | devFlash
  | devCartRom
  | devDdRegs
  | devDdRom
  | devPifBase
  | devPifRam
  | fromMapping (p : RaPtr)
  deriving DecidableEq, Repr

/-- Embeds `struct retro_memory_descriptor` as filled in by
`setup_retroarch_memory_map`; fields the code leaves at their
`memset`-zero value stay `0`. -/
structure RetroDesc where
  ptr : DescPtr
  start : Nat
  len : Nat
  flags : Nat
  select : Nat
  disconnect : Nat
  deriving DecidableEq, Repr

/-- Embeds one iteration of the descriptor-building loop of
`setup_retroarch_memory_map` (lines 97-185): the descriptors appended for
one mapping entry.  `use_flashram` is `dev->cart.use_flashram`. -/
def descs_of_mapping (use_flashram : Int) (m : MemMapping) : List RetroDesc :=
  if m.type = MemType.rdram then
    [ ⟨DescPtr.devDram, R4300_KSEG0 ||| m.begin_, m.ra_len, m.ra_flags,
        0x20000000, 0xC0000000⟩,
      ⟨DescPtr.devDram, R4300_KSEG1 ||| m.begin_, m.ra_len, m.ra_flags, 0, 0⟩ ]
  else if m.type = MemType.rspMem then
    [ ⟨DescPtr.devSpMem, R4300_KSEG1 ||| m.begin_, m.ra_len, m.ra_flags, 0, 0⟩ ]
  else if m.type = MemType.flashramStat then
    [ ⟨if use_flashram = -1 then DescPtr.devSram else DescPtr.devFlash,
        R4300_KSEG1 ||| m.begin_, m.ra_len, m.ra_flags, 0, 0⟩ ]
  else if m.type = MemType.rom then
    [ ⟨DescPtr.devCartRom, R4300_KSEG1 ||| m.begin_, m.ra_len, m.ra_flags, 0, 0⟩ ]
  else if m.type = MemType.ddReg then
    [ ⟨DescPtr.devDdRegs, R4300_KSEG1 ||| m.begin_, m.ra_len, m.ra_flags, 0, 0⟩ ]
  else if m.type = MemType.ddRom then
    [ ⟨DescPtr.devDdRom, R4300_KSEG1 ||| m.begin_, m.ra_len, m.ra_flags, 0, 0⟩ ]
  else if m.type = MemType.pif then
    [ ⟨DescPtr.devPifBase, R4300_KSEG1 ||| m.begin_, PIF_ROM_SIZE,
        RETRO_MEMDESC_CONST, 0, 0⟩,
      ⟨DescPtr.devPifRam, R4300_KSEG1 ||| (m.begin_ + PIF_ROM_SIZE),
        PIF_RAM_SIZE, 0, 0, 0⟩ ]
  else if m.ra_ptr ≠ RaPtr.null then
    [ ⟨DescPtr.fromMapping m.ra_ptr, R4300_KSEG1 ||| m.begin_, m.ra_len,
        m.ra_flags, 0, 0⟩ ]
  else
    []

/-- Embeds `setup_retroarch_memory_map`: the descriptor list handed to the
environment callback is the in-order concatenation of the descriptors
appended for each mapping (the trailing never-filled slots of the
stack array are not part of `num_descriptors`). -/
def setup_retroarch_memory_map (mappings : List MemMapping)
    (use_flashram : Int) : List RetroDesc :=
  mappings.flatMap (descs_of_mapping use_flashram)

/-! ### Lifecycle (`device.c` lines 381-398) -/

/-- Interrupt kind passed to `add_interrupt_event` by `soft_reset_device`. -/
inductive CP0IntKind
  | hw2_int
  | nmi_int
  deriving DecidableEq, Repr

/-- Embeds the state of the CPU core that the lifecycle entry points touch:
its stop flag, its `reset_hard_job` flag, the cp0 event queue, and all its
remaining state abstracted as `other`. -/
structure R4300Core (α : Type) where
  stop : Nat
  reset_hard_job : Nat
  cp0_events : List (CP0IntKind × Nat)
  other : α

/-- Embeds the composed device as seen by the lifecycle entry points: the
CPU core plus every other controller's state abstracted as `others`. -/
structure DeviceState (α β : Type) where
  r4300 : R4300Core α
  others : β

/-- Modelled from the spec: `add_interrupt_event` (cp0 scheduler, not among
the provided sources) enqueues one event on the CPU core's event scheduler
at the given virtual-time offset. -/
def add_interrupt_event (events : List (CP0IntKind × Nat)) (k : CP0IntKind)
    (delay : Nat) : List (CP0IntKind × Nat) :=
  events ++ [(k, delay)]

/-- Embeds `soft_reset_device`: schedules an HW2 event at offset 0 and an
NMI event at offset 50000000, in that order. -/
def soft_reset_device {α β : Type} (d : DeviceState α β) : DeviceState α β :=
  { d with r4300 := { d.r4300 with
      cp0_events := add_interrupt_event
        (add_interrupt_event d.r4300.cp0_events CP0IntKind.hw2_int 0)
        CP0IntKind.nmi_int 50000000 } }

/-- Embeds `stop_device`: `*r4300_stop(&dev->r4300) = 1` (the `r4300_stop`
accessor, not among the provided sources, is modelled from the spec as
yielding the CPU core's stop flag). -/
def stop_device {α β : Type} (d : DeviceState α β) : DeviceState α β :=
  { d with r4300 := { d.r4300 with stop := 1 } }

/-- Embeds `hard_reset_device`: `dev->r4300.reset_hard_job = 1`. -/
def hard_reset_device {α β : Type} (d : DeviceState α β) : DeviceState α β :=
  { d with r4300 := { d.r4300 with reset_hard_job := 1 } }

/-! ### Claims C1, C2, C10 -/

/-- C1: for every address left to the catch-all region, `read_open_bus`
returns the low 16 bits of the address replicated into both halves of the
32-bit word, and `write_open_bus` leaves all state unchanged for every
address, value and mask. -/
theorem open_bus_spec :
    (∀ address : Nat,
       read_open_bus address =
         ((address &&& 0xffff) ||| ((address &&& 0xffff) <<< 16)))
    ∧ (∀ (σ : Type) (s : σ) (address value mask : Nat),
       write_open_bus s address value mask = s) := by
  refine ⟨fun address => rfl, fun σ s a v m => rfl⟩

/-- C2: the DMA resolver selects handlers by descending address bands
(DOM3, then cart ROM, then DOM2-addr2, then DOM2-addr1); at one byte below
the DOM3 threshold it yields the cart-ROM handler and at the threshold the
DOM3 handler; the DOM2-addr1 band yields the disk-drive handler, and is
reachable (per the spec's caller model) only when a disk drive is composed. -/
theorem pi_dma_bands (address : Nat) (c0 : PiDmaCtx) (f0 : PiDmaFn) :
    (MM_CART_DOM3 ≤ address →
       get_pi_dma_handler address c0 f0 = (PiDmaCtx.cartPtr, PiDmaFn.cart_dom3))
    ∧ (MM_CART_ROM ≤ address → address < MM_CART_DOM3 →
       get_pi_dma_handler address c0 f0 = (PiDmaCtx.cartRomPtr, PiDmaFn.cart_rom))
    ∧ (MM_DOM2_ADDR2 ≤ address → address < MM_CART_ROM →
       get_pi_dma_handler address c0 f0 = (PiDmaCtx.cartPtr, PiDmaFn.cart_dom2))
    ∧ (MM_DOM2_ADDR1 ≤ address → address < MM_DOM2_ADDR2 →
       get_pi_dma_handler address c0 f0 = (PiDmaCtx.ddPtr, PiDmaFn.dd_dom))
    ∧ get_pi_dma_handler (MM_CART_DOM3 - 1) c0 f0
        = (PiDmaCtx.cartRomPtr, PiDmaFn.cart_rom)
    ∧ get_pi_dma_handler MM_CART_DOM3 c0 f0
        = (PiDmaCtx.cartPtr, PiDmaFn.cart_dom3)
    ∧ (∀ ddPresent : Bool, MM_DOM2_ADDR1 ≤ address → address < MM_DOM2_ADDR2 →
       pi_dma_dom2addr1_reachable ddPresent address →
       ddPresent = true ∧
         get_pi_dma_handler address c0 f0 = (PiDmaCtx.ddPtr, PiDmaFn.dd_dom)) := by
  simp only [get_pi_dma_handler, pi_dma_dom2addr1_reachable,
    MM_CART_ROM, MM_CART_DOM3, MM_DOM2_ADDR2, MM_DOM2_ADDR1]
  refine ⟨fun h1 => ?_, fun h1 h2 => ?_, fun h1 h2 => ?_, fun h1 h2 => ?_, ?_, ?_,
    fun dd h1 h2 hr => ⟨hr h1 h2, ?_⟩⟩ <;>
    split_ifs <;> first | rfl | omega

/-- Witness for `pi_dma_bands` at concrete addresses in each band. -/
theorem pi_dma_bands_witness :
    get_pi_dma_handler 0x20000000 PiDmaCtx.ddPtr PiDmaFn.dd_dom
      = (PiDmaCtx.cartPtr, PiDmaFn.cart_dom3)
    ∧ get_pi_dma_handler 0x10000000 PiDmaCtx.ddPtr PiDmaFn.dd_dom
      = (PiDmaCtx.cartRomPtr, PiDmaFn.cart_rom)
    ∧ get_pi_dma_handler 0x08000000 PiDmaCtx.ddPtr PiDmaFn.dd_dom
      = (PiDmaCtx.cartPtr, PiDmaFn.cart_dom2)
    ∧ get_pi_dma_handler 0x05000000 PiDmaCtx.cartPtr PiDmaFn.cart_rom
      = (PiDmaCtx.ddPtr, PiDmaFn.dd_dom)
    ∧ (true = true ∧ get_pi_dma_handler 0x05000000 PiDmaCtx.cartPtr PiDmaFn.cart_rom
      = (PiDmaCtx.ddPtr, PiDmaFn.dd_dom)) := by
  refine ⟨(pi_dma_bands 0x20000000 _ _).1 (by decide),
    (pi_dma_bands 0x10000000 _ _).2.1 (by decide) (by decide),
    (pi_dma_bands 0x08000000 _ _).2.2.1 (by decide) (by decide),
    (pi_dma_bands 0x05000000 _ _).2.2.2.1 (by decide) (by decide),
    (pi_dma_bands 0x05000000 PiDmaCtx.cartPtr PiDmaFn.cart_rom).2.2.2.2.2.2
      true (by decide) (by decide) (fun _ _ => rfl)⟩

/-- C10: below `MM_DOM2_ADDR1` no branch of the resolver fires and the out
parameters come back exactly as passed in; at or above the threshold the
result does not depend on the incoming out-parameter values. -/
theorem pi_dma_low_end (address : Nat) (c0 c1 : PiDmaCtx) (f0 f1 : PiDmaFn) :
    (address < MM_DOM2_ADDR1 → get_pi_dma_handler address c0 f0 = (c0, f0))
    ∧ (MM_DOM2_ADDR1 ≤ address →
       get_pi_dma_handler address c0 f0 = get_pi_dma_handler address c1 f1) := by
  simp only [get_pi_dma_handler, MM_CART_ROM, MM_CART_DOM3, MM_DOM2_ADDR2,
    MM_DOM2_ADDR1]
  constructor
  · intro h
    split_ifs <;> first | rfl | omega
  · intro h
    split_ifs <;> first | rfl | omega

/-- Witness for `pi_dma_low_end` at concrete addresses on both sides of the
threshold. -/
theorem pi_dma_low_end_witness :
    get_pi_dma_handler 0x04ffffff PiDmaCtx.cartPtr PiDmaFn.cart_dom2
      = (PiDmaCtx.cartPtr, PiDmaFn.cart_dom2)
    ∧ get_pi_dma_handler 0x05000000 PiDmaCtx.cartPtr PiDmaFn.cart_dom2
      = get_pi_dma_handler 0x05000000 PiDmaCtx.ddPtr PiDmaFn.dd_dom := by
  exact ⟨(pi_dma_low_end 0x04ffffff PiDmaCtx.cartPtr PiDmaCtx.ddPtr
      PiDmaFn.cart_dom2 PiDmaFn.dd_dom).1 (by decide),
    (pi_dma_low_end 0x05000000 PiDmaCtx.cartPtr PiDmaCtx.ddPtr
      PiDmaFn.cart_dom2 PiDmaFn.dd_dom).2 (by decide)⟩

/-- C3: the mapping table contains the disk-drive register and disk-drive
ROM regions exactly when disk-ROM size is nonzero, and when present they are
substituted into slots 14 and 15 — the slots otherwise holding the
DOM2-addr1 open-bus window and the DD-ROM open-bus placeholder — leaving
every other entry unchanged (never adding entries). -/
theorem mapping_table_dd_substitution (dram rom dd : Nat) :
    (build_mappings dram rom dd).length = 20
    ∧ ((build_mappings dram rom dd).any fun m => m.type == MemType.ddReg)
        = decide (0 < dd)
    ∧ ((build_mappings dram rom dd).any fun m => m.type == MemType.ddRom)
        = decide (0 < dd)
    ∧ (0 < dd → build_mappings dram rom dd
        = ((build_mappings dram rom 0).set 14 dd_regs_mapping).set 15
            (dd_rom_mapping dd))
    ∧ (build_mappings dram rom 0)[14]?
        = some ⟨MM_DOM2_ADDR1, MM_DOM2_ADDR1 ||| 0xffffff, MemType.nothing,
            HandlerCtx.null, RwFns.open_bus, RaPtr.null, 0xffffff, 0⟩
    ∧ (build_mappings dram rom 0)[15]?
        = some ⟨MM_DD_ROM, MM_DD_ROM ||| 0x1ffffff, MemType.nothing,
            HandlerCtx.null, RwFns.open_bus, RaPtr.null, 0x1ffffff, 0⟩
    ∧ (0 < dd → (build_mappings dram rom dd)[14]? = some dd_regs_mapping
        ∧ (build_mappings dram rom dd)[15]? = some (dd_rom_mapping dd))
    ∧ (∀ i, i ≠ 14 → i ≠ 15 →
        (build_mappings dram rom dd)[i]? = (build_mappings dram rom 0)[i]?) := by
  rcases Nat.eq_zero_or_pos dd with h | h
  · subst h
    exact ⟨rfl, rfl, rfl, fun h0 => absurd h0 (by omega), rfl, rfl,
      fun h0 => absurd h0 (by omega), fun i _ _ => rfl⟩
  · have hb : build_mappings dram rom dd
        = ((base_mappings dram rom).set 14 dd_regs_mapping).set 15
            (dd_rom_mapping dd) := by
      simp [build_mappings, h]
    have hb0 : build_mappings dram rom 0 = base_mappings dram rom := rfl
    refine ⟨by rw [hb]; rfl,
      by rw [hb, decide_eq_true h]; rfl,
      by rw [hb, decide_eq_true h]; rfl,
      fun _ => by rw [hb, hb0],
      rfl, rfl,
      fun _ => ⟨by rw [hb]; rfl, by rw [hb]; rfl⟩,
      fun i h14 h15 => ?_⟩
    rw [hb, hb0, List.getElem?_set_ne (by omega), List.getElem?_set_ne (by omega)]

/-- Witness for `mapping_table_dd_substitution` at a concrete configuration
with a disk drive present. -/
theorem mapping_table_dd_substitution_witness :
    build_mappings 2 4 8
      = ((build_mappings 2 4 0).set 14 dd_regs_mapping).set 15 (dd_rom_mapping 8)
    ∧ (build_mappings 2 4 8)[14]? = some dd_regs_mapping
    ∧ (build_mappings 2 4 8)[0]? = (build_mappings 2 4 0)[0]? := by
  exact ⟨(mapping_table_dd_substitution 2 4 8).2.2.2.1 (by decide),
    ((mapping_table_dd_substitution 2 4 8).2.2.2.2.2.2.1 (by decide)).1,
    (mapping_table_dd_substitution 2 4 8).2.2.2.2.2.2.2 0 (by decide) (by decide)⟩

/-- Helper: a per-channel power-on call is never the disk-drive power-on. -/
theorem poweron_channel_ne_dd (chans : List Nat) :
    PowerOp.dd ∉ chans.map PowerOp.channel := by
  intro h
  rcases List.mem_map.mp h with ⟨c, _, hc⟩
  exact PowerOp.noConfusion hc

/-- C4 counterexample: with disk-ROM size 0 the composed device's interrupt
routing table still contains all three disk-drive event kinds — the
`interrupt_handlers` array is built unconditionally. -/
theorem dd_interrupt_registration_counterexample :
    (init_device 0x400000 0x1000 0 0x43).dd_rom_present = false
    ∧ (IntCtx.dd, IntFn.dd_mecha) ∈ (init_device 0x400000 0x1000 0 0x43).itable
    ∧ (IntCtx.dd, IntFn.dd_bm) ∈ (init_device 0x400000 0x1000 0 0x43).itable
    ∧ (IntCtx.dd, IntFn.dd_dv) ∈ (init_device 0x400000 0x1000 0 0x43).itable := by
  decide

/-- C4 amended: if disk-ROM size is zero the mapping table contains no
disk-drive region and power-on never invokes the disk-drive power-on, but
the interrupt routing table unconditionally contains the three disk-drive
event kinds in every configuration. -/
theorem no_dd_when_absent (dram rom media : Nat) (chans : List Nat) :
    ((init_device dram rom 0 media).mappings.all
        fun m => !(m.type == MemType.ddReg) && !(m.type == MemType.ddRom)) = true
    ∧ PowerOp.dd ∉ poweron_device (init_device dram rom 0 media) chans
    ∧ (IntCtx.dd, IntFn.dd_mecha) ∈ (init_device dram rom 0 media).itable
    ∧ (IntCtx.dd, IntFn.dd_bm) ∈ (init_device dram rom 0 media).itable
    ∧ (IntCtx.dd, IntFn.dd_dv) ∈ (init_device dram rom 0 media).itable := by
  refine ⟨rfl, ?_,
    show (IntCtx.dd, IntFn.dd_mecha) ∈ interrupt_handlers by decide,
    show (IntCtx.dd, IntFn.dd_bm) ∈ interrupt_handlers by decide,
    show (IntCtx.dd, IntFn.dd_dv) ∈ interrupt_handlers by decide⟩
  intro h
  rw [poweron_device] at h
  rcases List.mem_append.mp h with h' | h'
  · rcases List.mem_append.mp h' with h'' | h''
    · exact absurd h'' (by decide)
    · exact poweron_channel_ne_dd chans h''
  · exact absurd h' (by simp [init_device])

/-- Witness for `no_dd_when_absent` at a concrete diskless configuration. -/
theorem no_dd_when_absent_witness :
    PowerOp.dd ∉ poweron_device (init_device 2 4 0 5) [0, 1]
    ∧ ((init_device 2 4 0 5).mappings.all
        fun m => !(m.type == MemType.ddReg) && !(m.type == MemType.ddRom)) = true := by
  exact ⟨(no_dd_when_absent 2 4 5 [0, 1]).2.1, (no_dd_when_absent 2 4 5 [0, 1]).1⟩

/-- C5 counterexample: with ROM size 0 and disk-ROM size 0 the boot-vector
base is the disk-drive ROM base even though no disk-drive image is present,
refuting "equals the disk-drive ROM base only if disk-ROM size is nonzero". -/
theorem boot_vector_claim_counterexample :
    (init_device 0x400000 0 0 0x43).rom_base = MM_DD_ROM
    ∧ (init_device 0x400000 0 0 0x43).dd_rom_present = false := by
  decide

/-- C5 amended: the boot-vector base equals the disk-drive ROM base iff the
cartridge image is absent (ROM size 0) or a disk-drive image is present and
the cartridge media-type tag is not `'C'`; in every other configuration the
cartridge ROM base supplies the boot vector. -/
theorem boot_vector_selection (dram rom dd media : Nat) :
    ((init_device dram rom dd media).rom_base = MM_DD_ROM
      ↔ (rom = 0 ∨ (0 < dd ∧ media ≠ 0x43)))
    ∧ ((init_device dram rom dd media).rom_base = MM_CART_ROM
      ↔ ¬(rom = 0 ∨ (0 < dd ∧ media ≠ 0x43)))
    ∧ (init_device dram rom dd media).rom_base = boot_rom_base rom dd media := by
  refine ⟨?_, ?_, rfl⟩ <;>
    · show boot_rom_base rom dd media = _ ↔ _
      rw [boot_rom_base]
      split_ifs with h <;>
        simp [h, MM_DD_ROM, MM_CART_ROM]

/-- Witness for `boot_vector_selection` at a concrete disk-boot
configuration. -/
theorem boot_vector_selection_witness :
    (init_device 2 4 8 0).rom_base = MM_DD_ROM := by
  exact (boot_vector_selection 2 4 8 0).1.mpr (Or.inr ⟨by decide, by decide⟩)

/-- Helper: a mapping whose type is not RDRAM contributes no descriptor
backed by the RDRAM store. -/
theorem descs_of_mapping_ptr_ne_dram (uf : Int) (m : MemMapping)
    (hm : m.type ≠ MemType.rdram) (d : RetroDesc)
    (hd : d ∈ descs_of_mapping uf m) : (d.ptr == DescPtr.devDram) = false := by
  rw [descs_of_mapping, if_neg hm] at hd
  split_ifs at hd <;>
    simp only [List.mem_cons, List.not_mem_nil, or_false] at hd <;>
    first
      | (rcases hd with rfl | rfl <;> rfl)
      | (subst hd; rfl)

/-- Helper: a list of mappings none of which is RDRAM-typed exports no
descriptor backed by the RDRAM store. -/
theorem setup_no_dram_of_no_rdram (uf : Int) (l : List MemMapping)
    (hl : ∀ x ∈ l, x.type ≠ MemType.rdram) :
    (setup_retroarch_memory_map l uf).filter
        (fun d => d.ptr == DescPtr.devDram) = [] := by
  rw [setup_retroarch_memory_map, List.filter_eq_nil_iff]
  intro d hd
  rcases List.mem_flatMap.mp hd with ⟨x, hx, hdx⟩
  simp [descs_of_mapping_ptr_ne_dram uf x (hl x hx) d hdx]

/-- C7: for every mapping table with exactly one RDRAM region, the host map
export contains exactly two descriptors backed by the RDRAM store: a cached
(KSEG0) alias carrying the select and disconnect masks, then an uncached
(KSEG1) alias, both over the same backing pointer. -/
theorem rdram_export_aliases (uf : Int) (pre post : List MemMapping)
    (m : MemMapping) (hm : m.type = MemType.rdram)
    (hpre : ∀ x ∈ pre, x.type ≠ MemType.rdram)
    (hpost : ∀ x ∈ post, x.type ≠ MemType.rdram) :
    (setup_retroarch_memory_map (pre ++ m :: post) uf).filter
        (fun d => d.ptr == DescPtr.devDram)
      = [ ⟨DescPtr.devDram, R4300_KSEG0 ||| m.begin_, m.ra_len, m.ra_flags,
            0x20000000, 0xC0000000⟩,
          ⟨DescPtr.devDram, R4300_KSEG1 ||| m.begin_, m.ra_len, m.ra_flags,
            0, 0⟩ ] := by
  rw [setup_retroarch_memory_map, List.flatMap_append, List.flatMap_cons,
    List.filter_append, List.filter_append]
  rw [show pre.flatMap (descs_of_mapping uf) = setup_retroarch_memory_map pre uf
      from rfl,
    show post.flatMap (descs_of_mapping uf) = setup_retroarch_memory_map post uf
      from rfl,
    setup_no_dram_of_no_rdram uf pre hpre,
    setup_no_dram_of_no_rdram uf post hpost,
    descs_of_mapping, if_pos hm]
  rfl

/-- Witness for `rdram_export_aliases` on the one-entry table holding the
RDRAM region of `base_mappings` with 8 MiB of RDRAM. -/
theorem rdram_export_aliases_witness :
    (setup_retroarch_memory_map
        [⟨MM_RDRAM_DRAM, MM_RDRAM_DRAM ||| 0x3efffff, MemType.rdram,
            HandlerCtx.rdram, RwFns.rdram_dram, RaPtr.null, 0x800000,
            RETRO_MEMDESC_SYSTEM_RAM⟩] 0).filter
        (fun d => d.ptr == DescPtr.devDram)
      = [ ⟨DescPtr.devDram, 0x80000000, 0x800000, 4, 0x20000000, 0xC0000000⟩,
          ⟨DescPtr.devDram, 0xa0000000, 0x800000, 4, 0, 0⟩ ] := by
  have h := rdram_export_aliases 0 [] []
    ⟨MM_RDRAM_DRAM, MM_RDRAM_DRAM ||| 0x3efffff, MemType.rdram,
      HandlerCtx.rdram, RwFns.rdram_dram, RaPtr.null, 0x800000,
      RETRO_MEMDESC_SYSTEM_RAM⟩
    rfl (fun x hx => absurd hx (List.not_mem_nil x))
    (fun x hx => absurd hx (List.not_mem_nil x))
  simpa [R4300_KSEG0, R4300_KSEG1, MM_RDRAM_DRAM] using h

/-- C6: the export descriptor produced for the save-media (flashram-status)
region is a single descriptor whose backing pointer is the flash buffer iff
the save-type selector is not -1 and the raw SRAM buffer iff it is -1, and
it is spliced into the export list in place. -/
theorem flashram_export_pointer (uf : Int) (m : MemMapping)
    (pre post : List MemMapping) (hm : m.type = MemType.flashramStat) :
    ∃ d : RetroDesc,
      descs_of_mapping uf m = [d]
      ∧ (d.ptr = DescPtr.devFlash ↔ uf ≠ -1)
      ∧ (d.ptr = DescPtr.devSram ↔ uf = -1)
      ∧ d.start = R4300_KSEG1 ||| m.begin_
      ∧ d.len = m.ra_len
      ∧ d.flags = m.ra_flags
      ∧ setup_retroarch_memory_map (pre ++ m :: post) uf
          = setup_retroarch_memory_map pre uf ++ [d]
            ++ setup_retroarch_memory_map post uf := by
  have hd : descs_of_mapping uf m
      = [⟨if uf = -1 then DescPtr.devSram else DescPtr.devFlash,
          R4300_KSEG1 ||| m.begin_, m.ra_len, m.ra_flags, 0, 0⟩] := by
    rw [descs_of_mapping, if_neg (by rw [hm]; intro h; cases h),
      if_neg (by rw [hm]; intro h; cases h), if_pos hm]
  refine ⟨_, hd, ?_, ?_, rfl, rfl, rfl, ?_⟩
  · by_cases huf : uf = -1 <;> simp [huf]
  · by_cases huf : uf = -1 <;> simp [huf]
  · rw [setup_retroarch_memory_map, List.flatMap_append, List.flatMap_cons, hd]
    simp [setup_retroarch_memory_map, List.append_assoc]

/-- Witness for `flashram_export_pointer` on the flashram-status entry of
`base_mappings`, for both values of the save-type selector. -/
theorem flashram_export_pointer_witness :
    (descs_of_mapping (-1)
        ⟨MM_DOM2_ADDR2, MM_DOM2_ADDR2 ||| 0x1ffff, MemType.flashramStat,
          HandlerCtx.cart, RwFns.cart_dom2, RaPtr.null, 0x1ffff, 0⟩).map
        (fun d => d.ptr) = [DescPtr.devSram]
    ∧ (descs_of_mapping 2
        ⟨MM_DOM2_ADDR2, MM_DOM2_ADDR2 ||| 0x1ffff, MemType.flashramStat,
          HandlerCtx.cart, RwFns.cart_dom2, RaPtr.null, 0x1ffff, 0⟩).map
        (fun d => d.ptr) = [DescPtr.devFlash] := by
  constructor
  · obtain ⟨d, h1, _, h3, -⟩ := flashram_export_pointer (-1)
      ⟨MM_DOM2_ADDR2, MM_DOM2_ADDR2 ||| 0x1ffff, MemType.flashramStat,
        HandlerCtx.cart, RwFns.cart_dom2, RaPtr.null, 0x1ffff, 0⟩ [] [] rfl
    rw [h1, List.map_cons, List.map_nil, h3.mpr rfl]
  · obtain ⟨d, h1, h2, -⟩ := flashram_export_pointer 2
      ⟨MM_DOM2_ADDR2, MM_DOM2_ADDR2 ||| 0x1ffff, MemType.flashramStat,
        HandlerCtx.cart, RwFns.cart_dom2, RaPtr.null, 0x1ffff, 0⟩ [] [] rfl
    rw [h1, List.map_cons, List.map_nil, h2.mpr (by decide)]

/-- C8: each call to `soft_reset_device` appends exactly the HW2 event at
offset 0 followed by the NMI event at offset 50000000 to the CPU core's
event queue, changes nothing else, and n calls enqueue 2n events. -/
theorem soft_reset_events {α β : Type} (d : DeviceState α β) (n : Nat) :
    (soft_reset_device d).r4300.cp0_events
      = d.r4300.cp0_events
        ++ [(CP0IntKind.hw2_int, 0), (CP0IntKind.nmi_int, 50000000)]
    ∧ (soft_reset_device d).r4300.stop = d.r4300.stop
    ∧ (soft_reset_device d).r4300.reset_hard_job = d.r4300.reset_hard_job
    ∧ (soft_reset_device d).r4300.other = d.r4300.other
    ∧ (soft_reset_device d).others = d.others
    ∧ (soft_reset_device^[n] d).r4300.cp0_events.length
        = d.r4300.cp0_events.length + 2 * n := by
  refine ⟨by simp [soft_reset_device, add_interrupt_event], rfl, rfl, rfl, rfl, ?_⟩
  induction n with
  | zero => simp
  | succ k ih =>
      rw [Function.iterate_succ_apply']
      simp only [soft_reset_device, add_interrupt_event, List.append_assoc,
        List.length_append, List.length_cons, List.length_nil] at ih ⊢
      omega

/-- C9: `stop_device` sets only the CPU core's stop flag to 1 and
`hard_reset_device` sets only the `reset_hard_job` flag to 1; every other
field of the device state is unchanged by the call itself. -/
theorem stop_hard_reset_deferred {α β : Type} (d : DeviceState α β) :
    (stop_device d).r4300.stop = 1
    ∧ (stop_device d).r4300.reset_hard_job = d.r4300.reset_hard_job
    ∧ (stop_device d).r4300.cp0_events = d.r4300.cp0_events
    ∧ (stop_device d).r4300.other = d.r4300.other
    ∧ (stop_device d).others = d.others
    ∧ (hard_reset_device d).r4300.reset_hard_job = 1
    ∧ (hard_reset_device d).r4300.stop = d.r4300.stop
    ∧ (hard_reset_device d).r4300.cp0_events = d.r4300.cp0_events
    ∧ (hard_reset_device d).r4300.other = d.r4300.other
    ∧ (hard_reset_device d).others = d.others := by
  exact ⟨rfl, rfl, rfl, rfl, rfl, rfl, rfl, rfl, rfl, rfl⟩

end Device
